import Mathlib

/-!
Shallow embedding of src/bot.py (RIZO card Telegram bot).

The embedding covers credential selection (pick_key), the retrying
upstream call (openai_images_edit_with_retries), the per-user gate of
handle_image (cooldown and the can_generate flag, with the finally block
that resets them), the OCR quality checks, the startup configuration
path, and a transition system for the asyncio semaphore guarding the
generation pipeline.

Timestamps are modelled in microseconds, the resolution of
datetime.utcnow, so that the cooldown arithmetic, including the int()
truncation of fractional seconds in the remaining-time message, is
exact. Randomness (random.choice) is modelled by an oracle value r; the
chosen element is the one at index r mod length, and an empty list
yields none where Python raises IndexError. Upstream exceptions and the
generated image payload are modelled as natural-number codes. Names
referenced by src/bot.py but not defined in it (RETRY_ATTEMPTS and
USER_COOLDOWN_SECONDS) are taken as parameters or modelled from the
spec, as noted on each definition.
-/

namespace RizoBot

/-- Models Python random.choice over a list: with oracle value r the
element at index r mod length is returned; an empty list gives none
(Python raises IndexError there). -/
def random_choice {α : Type} (l : List α) (r : Nat) : Option α :=
  l.get? (r % l.length)

/-- Models pick_key (src/bot.py lines 83-89): filter the key list down to
candidates not in the exclude set; if no candidate remains, fall back to
choosing from the full list. The Python truthiness test
"exclude_keys and k in exclude_keys" is the conjunction inside decide. -/
def pick_key (keys : List String) (exclude_keys : List String) (r : Nat) : Option String :=
  let candidates := keys.filter fun k => decide (¬(exclude_keys ≠ [] ∧ k ∈ exclude_keys))
  if candidates.isEmpty then random_choice keys r
  else random_choice candidates r

/-- Outcome of the retry loop in openai_images_edit_with_retries:
success with the decoded image, the re-raised last exception, or a crash
(random.choice on an empty key list, or raise None after zero
iterations, neither reachable in the theorems below). -/
inductive RetryOutcome : Type
  | success (img : Nat)
  | failure (lastErr : Nat)
  | crash
deriving DecidableEq

/-- Observable trace of one call to openai_images_edit_with_retries:
its outcome, how many upstream images.edit calls were issued, and the
backoff sleeps performed, in order. -/
structure RetryTrace : Type where
  outcome : RetryOutcome
  calls : Nat
  sleeps : List Nat
deriving DecidableEq

/-- Loop body of openai_images_edit_with_retries (src/bot.py lines
104-139), recursing over the remaining iteration count. Each iteration
picks a key excluding the tried set, adds it to the tried set, issues
the upstream call (the upstream argument maps attempt index and key to
the outcome), and on failure records the exception, sleeps
1 + attempt * 2, and continues; when the iterations are exhausted, the
recorded last exception is raised (line 142). -/
def retryGo (upstream : Nat → String → Except Nat Nat) (rng : Nat → Nat)
    (keys : List String) :
    Nat → Nat → List String → Option Nat → Nat → List Nat → RetryTrace
  | _attempt, 0, _tried, some e, calls, sleeps =>
      { outcome := RetryOutcome.failure e, calls := calls, sleeps := sleeps }
  | _attempt, 0, _tried, none, calls, sleeps =>
      { outcome := RetryOutcome.crash, calls := calls, sleeps := sleeps }
  | attempt, rem + 1, tried, _lastExc, calls, sleeps =>
      match pick_key keys tried (rng attempt) with
      | none => { outcome := RetryOutcome.crash, calls := calls, sleeps := sleeps }
      | some key =>
        match upstream attempt key with
        | Except.ok img =>
            { outcome := RetryOutcome.success img, calls := calls + 1, sleeps := sleeps }
        | Except.error e =>
            retryGo upstream rng keys (attempt + 1) rem (tried ++ [key]) (some e)
              (calls + 1) (sleeps ++ [1 + attempt * 2])

/-- Models openai_images_edit_with_retries (src/bot.py lines 95-142):
the loop "for attempt in range(RETRY_ATTEMPTS + 1)" makes
retryAttempts + 1 upstream tries starting from an empty tried set.
RETRY_ATTEMPTS is referenced at line 104 but not defined in src/bot.py,
so it is passed as the retryAttempts parameter (spec default 2). -/
def openai_images_edit_with_retries (retryAttempts : Nat) (keys : List String)
    (rng : Nat → Nat) (upstream : Nat → String → Except Nat Nat) : RetryTrace :=
  retryGo upstream rng keys 0 (retryAttempts + 1) [] none 0 []

lemma random_choice_mem {α : Type} (l : List α) (r : Nat) (h : l ≠ []) :
    ∃ a, random_choice l r = some a ∧ a ∈ l := by
  have hlen : 0 < l.length := List.length_pos.mpr h
  have hm : r % l.length < l.length := Nat.mod_lt _ hlen
  exact ⟨l.get ⟨r % l.length, hm⟩, List.get?_eq_get hm, List.get_mem _ _ _⟩

lemma pick_key_mem (keys exclude_keys : List String) (r : Nat) (hk : keys ≠ []) :
    ∃ k, pick_key keys exclude_keys r = some k ∧ k ∈ keys := by
  unfold pick_key
  set candidates :=
    keys.filter (fun k => decide (¬(exclude_keys ≠ [] ∧ k ∈ exclude_keys))) with hc
  by_cases hemp : candidates.isEmpty
  · obtain ⟨a, ha, hmem⟩ := random_choice_mem keys r hk
    exact ⟨a, by simp [hemp, ha], hmem⟩
  · have hne : candidates ≠ [] := by
      intro habs
      rw [habs] at hemp
      exact hemp rfl
    obtain ⟨a, ha, hmem⟩ := random_choice_mem candidates r hne
    refine ⟨a, by simp [hemp, ha], ?_⟩
    have := List.mem_filter.mp (hc ▸ hmem)
    exact this.1

lemma retryGo_all_fail (errf : Nat → String → Nat) (rng : Nat → Nat)
    (keys : List String) (hk : keys ≠ []) :
    ∀ remaining attempt tried lastExc calls sleeps,
      (retryGo (fun a c => Except.error (errf a c)) rng keys attempt (remaining + 1)
          tried lastExc calls sleeps).calls = calls + remaining + 1 ∧
      ∃ k, k ∈ keys ∧
        (retryGo (fun a c => Except.error (errf a c)) rng keys attempt (remaining + 1)
            tried lastExc calls sleeps).outcome
          = RetryOutcome.failure (errf (attempt + remaining) k) := by
  intro remaining
  induction remaining with
  | zero =>
      intro attempt tried lastExc calls sleeps
      obtain ⟨k, hpk, hkm⟩ := pick_key_mem keys tried (rng attempt) hk
      refine ⟨by simp [retryGo, hpk], k, hkm, by simp [retryGo, hpk]⟩
  | succ rem ih =>
      intro attempt tried lastExc calls sleeps
      obtain ⟨k0, hpk, _⟩ := pick_key_mem keys tried (rng attempt) hk
      have hstep :
          retryGo (fun a c => Except.error (errf a c)) rng keys attempt (rem + 1 + 1)
              tried lastExc calls sleeps
            = retryGo (fun a c => Except.error (errf a c)) rng keys (attempt + 1) (rem + 1)
              (tried ++ [k0]) (some (errf attempt k0)) (calls + 1)
              (sleeps ++ [1 + attempt * 2]) := by
        conv_lhs => rw [retryGo]
        rw [hpk]
      obtain ⟨hcalls, k, hkm, hout⟩ := ih (attempt + 1) (tried ++ [k0])
        (some (errf attempt k0)) (calls + 1) (sleeps ++ [1 + attempt * 2])
      constructor
      · rw [hstep, hcalls]
        omega
      · refine ⟨k, hkm, ?_⟩
        rw [hstep, hout]
        have harith : attempt + 1 + rem = attempt + (rem + 1) := by omega
        rw [harith]

/-- C2: with an upstream that fails on every call, the retry routine
makes exactly maxAttempts = RETRY_ATTEMPTS + 1 upstream tries (the loop
at src/bot.py line 104 runs range(RETRY_ATTEMPTS + 1) to completion) and
re-raises the last exception observed, namely the one produced on the
final attempt (line 142 raises last_exc). -/
theorem openai_retries_fail_after_max_attempts (retryAttempts : Nat)
    (keys : List String) (rng : Nat → Nat) (errf : Nat → String → Nat)
    (hk : keys ≠ []) :
    (openai_images_edit_with_retries retryAttempts keys rng
        (fun a c => Except.error (errf a c))).calls = retryAttempts + 1 ∧
    ∃ k, k ∈ keys ∧
      (openai_images_edit_with_retries retryAttempts keys rng
          (fun a c => Except.error (errf a c))).outcome
        = RetryOutcome.failure (errf retryAttempts k) := by
  obtain ⟨hcalls, k, hkm, hout⟩ :=
    retryGo_all_fail errf rng keys hk retryAttempts 0 [] none 0 []
  refine ⟨by simpa using hcalls, k, hkm, ?_⟩
  simpa using hout

/-- Witness for C2 at a concrete input: one key, RETRY_ATTEMPTS = 1, an
upstream whose error code equals the attempt index; two tries are made
and the failure carries error code 1, the last one observed. -/
theorem openai_retries_fail_after_max_attempts_witness :
    (openai_images_edit_with_retries 1 ["a"] (fun _ => 0)
        (fun a _ => Except.error a)).calls = 1 + 1 ∧
    ∃ k, k ∈ (["a"] : List String) ∧
      (openai_images_edit_with_retries 1 ["a"] (fun _ => 0)
          (fun a _ => Except.error a)).outcome
        = RetryOutcome.failure 1 :=
  openai_retries_fail_after_max_attempts 1 ["a"] (fun _ => 0) (fun a _ => a)
    (by decide)

/-- C7: pick_key never raises when the key list is nonempty (and
OPENAI_KEYS is never the empty list, since str.split always yields at
least one element): it returns some key from the pool; when at least one
key is outside the exclude set the returned key is outside the exclude
set, and when every key is excluded it falls back to the full pool. -/
theorem pick_key_total_and_respects_exclusion (keys exclude_keys : List String)
    (r : Nat) (hk : keys ≠ []) :
    ∃ k, pick_key keys exclude_keys r = some k ∧ k ∈ keys ∧
      ((∃ k0, k0 ∈ keys ∧ k0 ∉ exclude_keys) → k ∉ exclude_keys) := by
  unfold pick_key
  set candidates :=
    keys.filter (fun k => decide (¬(exclude_keys ≠ [] ∧ k ∈ exclude_keys))) with hc
  by_cases hemp : candidates.isEmpty
  · obtain ⟨a, ha, hmem⟩ := random_choice_mem keys r hk
    refine ⟨a, by simp [hemp, ha], hmem, ?_⟩
    rintro ⟨k0, hk0, hk0ex⟩
    exfalso
    have hk0c : k0 ∈ candidates := by
      rw [hc]
      refine List.mem_filter.mpr ⟨hk0, ?_⟩
      simp only [decide_eq_true_eq]
      rintro ⟨-, habs⟩
      exact hk0ex habs
    rcases candidates with _ | ⟨c, cs⟩
    · simp at hk0c
    · simp [List.isEmpty] at hemp
  · have hne : candidates ≠ [] := by
      intro habs
      rw [habs] at hemp
      exact hemp rfl
    obtain ⟨a, ha, hmem⟩ := random_choice_mem candidates r hne
    have hfilt := List.mem_filter.mp (hc ▸ hmem)
    refine ⟨a, by simp [hemp, ha], hfilt.1, fun _ hax => ?_⟩
    have hprop := of_decide_eq_true hfilt.2
    by_cases hexe : exclude_keys = []
    · rw [hexe] at hax
      simp at hax
    · exact hprop ⟨hexe, hax⟩

/-- Witness for C7 at a concrete input: a two-key pool with every key
excluded still yields some key from the pool. -/
theorem pick_key_total_and_respects_exclusion_witness :
    ∃ k, pick_key ["a", "b"] ["a", "b"] 0 = some k ∧ k ∈ (["a", "b"] : List String) ∧
      ((∃ k0, k0 ∈ (["a", "b"] : List String) ∧ k0 ∉ (["a", "b"] : List String)) →
        k ∉ (["a", "b"] : List String)) :=
  pick_key_total_and_respects_exclusion ["a", "b"] ["a", "b"] 0 (by decide)

/-- C8: the code does sleep after the last failed attempt. With
RETRY_ATTEMPTS = 2 and an always-failing upstream, the backoff sleeps
performed are [1, 3, 5]: the sleep of 1 + attempt * 2 seconds at
src/bot.py lines 138-139 runs unconditionally in the except block, so a
5-second sleep occurs after the third and final attempt, just before
last_exc is raised; the claim (and the comment at line 137) expect no
sleep after the last attempt, that is, the trace [1, 3]. -/
theorem backoff_sleeps_after_last_attempt :
    (openai_images_edit_with_retries 2 ["k1"] (fun _ => 0)
        (fun a _ => Except.error a)).sleeps = [1, 3, 5] ∧
    (openai_images_edit_with_retries 2 ["k1"] (fun _ => 0)
        (fun a _ => Except.error a)).outcome = RetryOutcome.failure 2 := by
  constructor
  · rfl
  · rfl

/-- Modelled from the spec: USER_COOLDOWN_SECONDS is referenced at
src/bot.py line 215 but not defined anywhere in src/; the spec gives the
default 300 seconds (configurable). The session theorems take the
cooldown as a parameter and this value instantiates witnesses. -/
def USER_COOLDOWN_SECONDS : Nat := 300

/-- Modelled from the spec: RETRY_ATTEMPTS is referenced at src/bot.py
line 104 but not defined anywhere in src/; the spec default is 2. -/
def RETRY_ATTEMPTS : Nat := 2

/-- Per-user session state: user_last_request[user_id] (src/bot.py line
78, a timestamp in microseconds when present) and the per-user
context.user_data can_generate flag (set by generate_cmd and the
create-another callback, cleared and restored by handle_image). -/
structure SessionState : Type where
  lastRequest : Option Nat
  can_generate : Bool
deriving DecidableEq

/-- Replies handle_image can send, in order: the cooldown rejection with
its computed remaining seconds, the not-armed rejection, the generating
notice, the final photo, and the error text from the except block. -/
inductive Reply : Type
  | cooldownWait (remaining : Nat)
  | notArmed
  | generating
  | photo
  | errorText
deriving DecidableEq

/-- Log warnings emitted by the OCR quality checks in handle_image
(src/bot.py lines 250-253). -/
inductive Warning : Type
  | hpMissing
  | duplicateFlavor
deriving DecidableEq

/-- Observable result of one handle_image call: the user session state
it leaves behind, the replies sent, the OCR log warnings, and how many
upstream images.edit calls were issued. -/
structure HandleResult : Type where
  state : SessionState
  replies : List Reply
  warnings : List Warning
  upstreamCalls : Nat
deriving DecidableEq

/-- Environment of handle_image: the cooldown and retry configuration,
the key pool, the randomness oracle, the upstream call outcomes, and the
OCR text extraction outcomes (an error code models a pytesseract
exception). -/
structure Env : Type where
  cooldown : Nat
  retryAttempts : Nat
  keys : List String
  rng : Nat → Nat
  upstream : Nat → String → Except Nat Nat
  ocrHp : Except Nat String
  ocrFlavor : Except Nat String

/-- Cooldown test of src/bot.py line 215: last is set and
(now - last).total_seconds() < USER_COOLDOWN_SECONDS. With microsecond
timestamps the comparison is diff < cooldown * 1000000, exact for the
values datetime produces. -/
def underCooldown (cooldown : Nat) (st : SessionState) (nowUs : Nat) : Bool :=
  match st.lastRequest with
  | some l => decide (nowUs - l < cooldown * 1000000)
  | none => false

/-- Remaining-seconds computation of src/bot.py line 216:
int(USER_COOLDOWN_SECONDS - (now - last).total_seconds()). The value is
positive in context, so int() truncation is floor, which in microsecond
arithmetic is Nat division by 1000000. -/
def remainingSeconds (cooldown : Nat) (st : SessionState) (nowUs : Nat) : Nat :=
  match st.lastRequest with
  | some l => (cooldown * 1000000 - (nowUs - l)) / 1000000
  | none => 0

/-- Substring test modelling the Python "needle in hay" operator:
splitting on a nonempty needle yields at least two pieces exactly when
the needle occurs. -/
def hasSubstr (hay needle : String) : Bool :=
  decide (2 ≤ (hay.splitOn needle).length)

/-- Models check_hp_visibility_sync (src/bot.py lines 180-186): OCR the
card and test whether "HP" occurs in the uppercased text; any exception
is swallowed and yields False. The ocr argument is the outcome of
pytesseract.image_to_string. -/
def check_hp_visibility_sync (ocr : Except Nat String) : Bool :=
  match ocr with
  | Except.ok text => hasSubstr text.toUpper "HP"
  | Except.error _ => false

/-- Models check_flavor_text_sync (src/bot.py lines 188-197): split the
OCR text into stripped nonempty lines, keep candidate lines of length
strictly between 5 and 80 not mentioning weak or resist, and test that
the candidates contain no duplicate (len(candidates) equals the number
of distinct candidates); any exception is swallowed and yields True. -/
def check_flavor_text_sync (ocr : Except Nat String) : Bool :=
  match ocr with
  | Except.ok text =>
      let lines := ((text.splitOn "\n").map String.trim).filter fun ln =>
        decide (ln ≠ "")
      let flavor_candidates := lines.filter fun ln =>
        decide (5 < ln.length) && decide (ln.length < 80) &&
        !hasSubstr ln.toLower "weak" && !hasSubstr ln.toLower "resist"
      decide (flavor_candidates.dedup.length = flavor_candidates.length)
  | Except.error _ => true

/-- Guarded generation pipeline of handle_image (src/bot.py lines
228-277): the generating notice is sent, the retrying upstream call
runs, on success the OCR checks contribute only log warnings and the
stamped card is sent as a photo, on any exception the except block sends
the error text; the finally block at lines 273-277 then sets
can_generate back to True and user_last_request to the completion time
endUs on every path. The intermediate assignment of lines 225-226
(lastRequest := nowUs, can_generate := False) is overwritten by the
finally block and is not observable in the result. -/
def run_pipeline (env : Env) (_nowUs endUs : Nat) : HandleResult :=
  let trace := openai_images_edit_with_retries env.retryAttempts env.keys env.rng
    env.upstream
  let finalState : SessionState := { lastRequest := some endUs, can_generate := true }
  match trace.outcome with
  | RetryOutcome.success _ =>
      let hp_ok := check_hp_visibility_sync env.ocrHp
      let flavor_ok := check_flavor_text_sync env.ocrFlavor
      { state := finalState,
        replies := [Reply.generating, Reply.photo],
        warnings := (if hp_ok then [] else [Warning.hpMissing]) ++
          (if flavor_ok then [] else [Warning.duplicateFlavor]),
        upstreamCalls := trace.calls }
  | RetryOutcome.failure _ =>
      { state := finalState, replies := [Reply.generating, Reply.errorText],
        warnings := [], upstreamCalls := trace.calls }
  | RetryOutcome.crash =>
      { state := finalState, replies := [Reply.generating, Reply.errorText],
        warnings := [], upstreamCalls := trace.calls }

/-- Models handle_image (src/bot.py lines 209-277) for one user: the
cooldown gate (lines 213-218) rejects with the remaining seconds and
changes nothing; the arming gate (lines 220-222) rejects when
can_generate is unset and changes nothing; otherwise the generation
pipeline runs and the finally block resets the session. nowUs is
datetime.utcnow() at entry (line 211) and endUs is datetime.utcnow() in
the finally block (line 277), both in microseconds. -/
def handle_image (env : Env) (st : SessionState) (nowUs endUs : Nat) : HandleResult :=
  if underCooldown env.cooldown st nowUs then
    { state := st, replies := [Reply.cooldownWait (remainingSeconds env.cooldown st nowUs)],
      warnings := [], upstreamCalls := 0 }
  else if st.can_generate = false then
    { state := st, replies := [Reply.notArmed], warnings := [], upstreamCalls := 0 }
  else
    run_pipeline env nowUs endUs

/-- Concrete environment with an always-failing upstream, used in closed
statements: the spec-default cooldown and retry count, a single key, and
OCR outcomes that are never reached. -/
def envFail : Env :=
  { cooldown := USER_COOLDOWN_SECONDS, retryAttempts := RETRY_ATTEMPTS,
    keys := ["k1"], rng := fun _ => 0,
    upstream := fun a _ => Except.error a,
    ocrHp := Except.error 0, ocrFlavor := Except.error 0 }

/-- Concrete environment whose upstream succeeds on the first try, used
in closed statements. -/
def envOk : Env :=
  { cooldown := USER_COOLDOWN_SECONDS, retryAttempts := RETRY_ATTEMPTS,
    keys := ["k1"], rng := fun _ => 0,
    upstream := fun _ _ => Except.ok 1,
    ocrHp := Except.ok "HP100", ocrFlavor := Except.ok "" }

/-- C5: an image submission from a user who is not armed (can_generate
unset, whether never armed or already consumed) and not under cooldown
is rejected at src/bot.py lines 220-222 with the explanatory reply,
makes no upstream call, and leaves the session state (lastRequest and
the armed flag) unchanged. -/
theorem image_without_arming_rejected (env : Env) (st : SessionState)
    (nowUs endUs : Nat)
    (hcd : underCooldown env.cooldown st nowUs = false)
    (ha : st.can_generate = false) :
    handle_image env st nowUs endUs
      = { state := st, replies := [Reply.notArmed], warnings := [],
          upstreamCalls := 0 } := by
  simp [handle_image, hcd, ha]

/-- Witness for C5 at a concrete input: a user who never armed and has
no recorded request is rejected with the not-armed reply and an
unchanged session. -/
theorem image_without_arming_rejected_witness :
    underCooldown envFail.cooldown { lastRequest := none, can_generate := false } 0
      = false ∧
    handle_image envFail { lastRequest := none, can_generate := false } 0 0
      = { state := { lastRequest := none, can_generate := false },
          replies := [Reply.notArmed], warnings := [], upstreamCalls := 0 } :=
  ⟨by decide,
    image_without_arming_rejected envFail
      { lastRequest := none, can_generate := false } 0 0 (by decide) (by decide)⟩

/-- C4 counterexample: with cooldown 300s, lastRequestAt = 0 and an
image arriving 299.5 seconds later (299500000 microseconds), the
submission is rejected but the remaining value int(0.5) computed at
src/bot.py line 216 is 0: not strictly positive, and not equal to the
0.5 seconds actually left. -/
theorem cooldown_remaining_can_be_zero :
    handle_image envFail { lastRequest := some 0, can_generate := true }
        299500000 299500000
      = { state := { lastRequest := some 0, can_generate := true },
          replies := [Reply.cooldownWait 0], warnings := [],
          upstreamCalls := 0 } := by
  decide

/-- C4 amended: an image submission arriving while
now - lastRequestAt < cooldownDuration is rejected with a
remainingSeconds equal to the floor of the time left until the cooldown
elapses, a value that is at most cooldownDuration but can be 0 when less
than one second remains; no upstream call is made and the session state
is unchanged. -/
theorem cooldown_rejected_with_floored_remaining (env : Env) (st : SessionState)
    (nowUs endUs l : Nat) (hl : st.lastRequest = some l) (_hle : l ≤ nowUs)
    (hlt : nowUs - l < env.cooldown * 1000000) :
    handle_image env st nowUs endUs
      = { state := st,
          replies := [Reply.cooldownWait
            ((env.cooldown * 1000000 - (nowUs - l)) / 1000000)],
          warnings := [], upstreamCalls := 0 } ∧
    (env.cooldown * 1000000 - (nowUs - l)) / 1000000 ≤ env.cooldown := by
  have hcd : underCooldown env.cooldown st nowUs = true := by
    simp [underCooldown, hl, hlt]
  have hrem : remainingSeconds env.cooldown st nowUs
      = (env.cooldown * 1000000 - (nowUs - l)) / 1000000 := by
    simp [remainingSeconds, hl]
  constructor
  · simp [handle_image, hcd, hrem]
  · omega

/-- Witness for the amended C4 at a concrete input: 100 seconds into a
300-second cooldown the submission is rejected with 200 seconds
remaining and no upstream call. -/
theorem cooldown_rejected_with_floored_remaining_witness :
    handle_image envFail { lastRequest := some 0, can_generate := true }
        100000000 100000000
      = { state := { lastRequest := some 0, can_generate := true },
          replies := [Reply.cooldownWait 200], warnings := [],
          upstreamCalls := 0 } ∧
    (200 : Nat) ≤ 300 :=
  cooldown_rejected_with_floored_remaining envFail
    { lastRequest := some 0, can_generate := true } 100000000 100000000 0 rfl
    (by decide) (by decide)

/-- C1 counterexample: with an always-failing upstream the pipeline
fails, yet the finally block (src/bot.py lines 273-277) records the
completion time in user_last_request, so a request issued one second
after the failure is rejected for cooldown with 299 seconds remaining
and makes no upstream call, contradicting cooldown NOT started. -/
theorem failed_generation_starts_cooldown :
    (handle_image envFail { lastRequest := none, can_generate := true }
        0 1000000).state
      = { lastRequest := some 1000000, can_generate := true } ∧
    (handle_image envFail { lastRequest := none, can_generate := true }
        0 1000000).replies = [Reply.generating, Reply.errorText] ∧
    (handle_image envFail { lastRequest := some 1000000, can_generate := true }
        2000000 2000000).replies = [Reply.cooldownWait 299] ∧
    (handle_image envFail { lastRequest := some 1000000, can_generate := true }
        2000000 2000000).upstreamCalls = 0 := by
  decide

/-- C1 amended: when the pipeline ends in failure (all retry attempts
exhausted), the finally block resets can_generate to True, so the arming
gate does not reject the user, but it also sets user_last_request to the
completion time: the cooldown IS started, and a subsequent submission
within cooldownDuration of the failure is rejected for cooldown with no
upstream call. -/
theorem failure_restores_flag_and_starts_cooldown (env : Env) (st : SessionState)
    (nowUs endUs now2 end2 : Nat) (errf : Nat → String → Nat)
    (hup : env.upstream = fun a c => Except.error (errf a c))
    (hk : env.keys ≠ [])
    (hcd : underCooldown env.cooldown st nowUs = false)
    (ha : st.can_generate = true)
    (h2 : now2 - endUs < env.cooldown * 1000000) :
    (handle_image env st nowUs endUs).state
      = { lastRequest := some endUs, can_generate := true } ∧
    (handle_image env st nowUs endUs).replies
      = [Reply.generating, Reply.errorText] ∧
    (handle_image env ((handle_image env st nowUs endUs).state) now2 end2).replies
      = [Reply.cooldownWait ((env.cooldown * 1000000 - (now2 - endUs)) / 1000000)] ∧
    (handle_image env ((handle_image env st nowUs endUs).state) now2 end2).upstreamCalls
      = 0 := by
  have h1 : handle_image env st nowUs endUs = run_pipeline env nowUs endUs := by
    simp [handle_image, hcd, ha]
  obtain ⟨-, k, -, hout⟩ :=
    retryGo_all_fail errf env.rng env.keys hk env.retryAttempts 0 [] none 0 []
  have htr : (openai_images_edit_with_retries env.retryAttempts env.keys env.rng
      env.upstream).outcome = RetryOutcome.failure (errf (0 + env.retryAttempts) k) := by
    rw [hup]
    exact hout
  have hpipe : run_pipeline env nowUs endUs
      = { state := { lastRequest := some endUs, can_generate := true },
          replies := [Reply.generating, Reply.errorText], warnings := [],
          upstreamCalls := (openai_images_edit_with_retries env.retryAttempts
            env.keys env.rng env.upstream).calls } := by
    simp only [run_pipeline]
    rw [htr]
  have hcd2 : underCooldown env.cooldown
      { lastRequest := some endUs, can_generate := true } now2 = true := by
    simp [underCooldown, h2]
  have hsecond : handle_image env
      ({ lastRequest := some endUs, can_generate := true } : SessionState) now2 end2
      = { state := { lastRequest := some endUs, can_generate := true },
          replies := [Reply.cooldownWait
            ((env.cooldown * 1000000 - (now2 - endUs)) / 1000000)],
          warnings := [], upstreamCalls := 0 } := by
    simp [handle_image, hcd2, remainingSeconds]
  have hstate : (handle_image env st nowUs endUs).state
      = { lastRequest := some endUs, can_generate := true } := by
    rw [h1, hpipe]
  refine ⟨hstate, by rw [h1, hpipe], ?_, ?_⟩
  · rw [hstate, hsecond]
  · rw [hstate, hsecond]

/-- Witness for the amended C1 at a concrete input: the failing run ends
at 0.5s, the flag is back to True, and a submission one second later is
rejected with 299 seconds remaining and no upstream call. -/
theorem failure_restores_flag_and_starts_cooldown_witness :
    (handle_image envFail { lastRequest := none, can_generate := true }
        0 500000).state
      = { lastRequest := some 500000, can_generate := true } ∧
    (handle_image envFail { lastRequest := none, can_generate := true }
        0 500000).replies = [Reply.generating, Reply.errorText] ∧
    (handle_image envFail ((handle_image envFail
        { lastRequest := none, can_generate := true } 0 500000).state)
        1500000 1500000).replies = [Reply.cooldownWait 299] ∧
    (handle_image envFail ((handle_image envFail
        { lastRequest := none, can_generate := true } 0 500000).state)
        1500000 1500000).upstreamCalls = 0 :=
  failure_restores_flag_and_starts_cooldown envFail
    { lastRequest := none, can_generate := true } 0 500000 1500000 1500000
    (fun a _ => a) rfl (by decide) (by decide) (by decide) (by decide)

/-- C3 counterexample: after a successful generation the finally block
leaves can_generate = True, so once the cooldown has elapsed a new image
submission is accepted and generates again (photo reply, one upstream
call) without any re-issued /generate command or create-another
callback: completion does not put the user in a state that rejects
images until re-arming. -/
theorem completion_leaves_user_armed :
    (handle_image envOk { lastRequest := none, can_generate := true }
        0 1000000).state
      = { lastRequest := some 1000000, can_generate := true } ∧
    (handle_image envOk { lastRequest := none, can_generate := true }
        0 1000000).replies = [Reply.generating, Reply.photo] ∧
    (handle_image envOk { lastRequest := some 1000000, can_generate := true }
        301000000 302000000).replies = [Reply.generating, Reply.photo] ∧
    0 < (handle_image envOk { lastRequest := some 1000000, can_generate := true }
        301000000 302000000).upstreamCalls := by
  decide

/-- C3 amended: when the pipeline completes (success or failure), the
finally block sets the user state to lastRequest = completion time with
can_generate = True: the user stays armed, a subsequent image submission
is gated only by the cooldown, and once cooldownDuration has elapsed it
proceeds into the generation pipeline (its first reply is the generating
notice) without re-issuing the command or the callback. -/
theorem completion_rearms_with_cooldown_only (env : Env) (st : SessionState)
    (nowUs endUs now2 end2 : Nat)
    (hcd : underCooldown env.cooldown st nowUs = false)
    (ha : st.can_generate = true)
    (h2 : env.cooldown * 1000000 ≤ now2 - endUs) :
    (handle_image env st nowUs endUs).state
      = { lastRequest := some endUs, can_generate := true } ∧
    (handle_image env ((handle_image env st nowUs endUs).state)
        now2 end2).replies.head? = some Reply.generating := by
  have h1 : handle_image env st nowUs endUs = run_pipeline env nowUs endUs := by
    simp [handle_image, hcd, ha]
  have hstate : (run_pipeline env nowUs endUs).state
      = { lastRequest := some endUs, can_generate := true } := by
    cases houtcome : (openai_images_edit_with_retries env.retryAttempts env.keys
        env.rng env.upstream).outcome <;>
      simp [run_pipeline, houtcome]
  have hnot : ¬(now2 - endUs < env.cooldown * 1000000) := by omega
  have hcd2 : underCooldown env.cooldown
      { lastRequest := some endUs, can_generate := true } now2 = false := by
    simp [underCooldown, hnot]
  have h1' : handle_image env
      ({ lastRequest := some endUs, can_generate := true } : SessionState) now2 end2
      = run_pipeline env now2 end2 := by
    simp [handle_image, hcd2]
  have hhead : (run_pipeline env now2 end2).replies.head? = some Reply.generating := by
    cases houtcome : (openai_images_edit_with_retries env.retryAttempts env.keys
        env.rng env.upstream).outcome <;>
      simp [run_pipeline, houtcome]
  refine ⟨by rw [h1, hstate], ?_⟩
  rw [h1, hstate, h1', hhead]

/-- Witness for the amended C3 at a concrete input: a successful run
ending at 1s leaves the user armed with the cooldown started, and a
submission exactly 300 seconds later proceeds into the pipeline. -/
theorem completion_rearms_with_cooldown_only_witness :
    (handle_image envOk { lastRequest := none, can_generate := true }
        0 1000000).state
      = { lastRequest := some 1000000, can_generate := true } ∧
    (handle_image envOk ((handle_image envOk
        { lastRequest := none, can_generate := true } 0 1000000).state)
        301000000 400000000).replies.head? = some Reply.generating :=
  completion_rearms_with_cooldown_only envOk
    { lastRequest := none, can_generate := true } 0 1000000 301000000 400000000
    (by decide) (by decide) (by decide)

/-- C10: the OCR quality checks never gate the outcome: for every pair
of OCR extraction results, including exceptions, the successful pipeline
still sends the stamped card as a photo (src/bot.py lines 246-267 use
hp_ok and flavor_ok only for log warnings), and each check swallows its
own exception, the HP check defaulting to False and the flavor check to
True (lines 184-186 and 195-197). -/
theorem ocr_checks_never_gate (ocrHp ocrFlavor : Except Nat String) (e : Nat) :
    (handle_image
        { cooldown := USER_COOLDOWN_SECONDS, retryAttempts := RETRY_ATTEMPTS,
          keys := ["k1"], rng := fun _ => 0, upstream := fun _ _ => Except.ok 1,
          ocrHp := ocrHp, ocrFlavor := ocrFlavor }
        { lastRequest := none, can_generate := true } 0 1000000).replies
      = [Reply.generating, Reply.photo] ∧
    check_hp_visibility_sync (Except.error e) = false ∧
    check_flavor_text_sync (Except.error e) = true :=
  ⟨rfl, rfl, rfl⟩

/-- MAX_CONCURRENCY (src/bot.py line 36): int(os.getenv with default 3)
bounding the asyncio.Semaphore at lines 37 and 75. -/
def MAX_CONCURRENCY : Nat := 3

/-- Phase of one handler task with respect to the semaphore guarding the
generation pipeline (src/bot.py lines 239-271): suspended in acquisition
at the async-with entry, holding a slot inside the guarded section, or
finished (the async-with released the slot on either the normal or the
exceptional exit). -/
inductive TaskPhase : Type
  | waiting
  | holding
  | done
deriving DecidableEq

/-- Contribution of one task phase to the count of in-flight
pipelines. -/
def phaseWeight : TaskPhase → Nat
  | TaskPhase.holding => 1
  | _ => 0

/-- Number of tasks currently holding a semaphore slot. -/
def countHolding : List TaskPhase → Nat
  | [] => 0
  | p :: t => phaseWeight p + countHolding t

/-- State of the semaphore and of the handler tasks: free slot count and
the phase of each task. -/
structure GateState : Type where
  free : Nat
  phases : List TaskPhase
deriving DecidableEq

/-- Initial state: an asyncio.Semaphore with n free slots and m handler
tasks that have not yet entered the async-with block. -/
def initGate (n m : Nat) : GateState :=
  { free := n, phases := List.replicate m TaskPhase.waiting }

/-- Interleaving semantics of the async-with semaphore block in
handle_image: a waiting task acquires only when a slot is free (acquire
suspends otherwise), and a holding task leaving the guarded section
releases its slot whether it exits normally or by exception (the ok flag
distinguishes the success path from the except path at src/bot.py lines
269-271; both run the release of the async-with). -/
inductive GateStep : GateState → GateState → Prop
  | acquire (s : GateState) (i : Nat)
      (h : s.phases.get? i = some TaskPhase.waiting) (hf : 0 < s.free) :
      GateStep s { free := s.free - 1, phases := s.phases.set i TaskPhase.holding }
  | finish (s : GateState) (i : Nat) (ok : Bool)
      (h : s.phases.get? i = some TaskPhase.holding) :
      GateStep s { free := s.free + 1, phases := s.phases.set i TaskPhase.done }

/-- States reachable from an initial gate state with n slots and m
tasks. -/
def GateReachable (n m : Nat) (s : GateState) : Prop :=
  Relation.ReflTransGen GateStep (initGate n m) s

lemma countHolding_set (l : List TaskPhase) (i : Nat) (a b : TaskPhase)
    (h : l.get? i = some a) :
    countHolding (l.set i b) + phaseWeight a = countHolding l + phaseWeight b := by
  induction l generalizing i with
  | nil => simp at h
  | cons hd tl ih =>
      cases i with
      | zero =>
          simp only [List.get?] at h
          cases h
          simp [countHolding]
          omega
      | succ n =>
          simp only [List.get?] at h
          have := ih n h
          simp [countHolding]
          omega

lemma countHolding_replicate_waiting (m : Nat) :
    countHolding (List.replicate m TaskPhase.waiting) = 0 := by
  induction m with
  | zero => rfl
  | succ n ih => simp [List.replicate, countHolding, phaseWeight, ih]

lemma gate_step_preserves (n : Nat) (s t : GateState) (hstep : GateStep s t)
    (h : countHolding s.phases + s.free = n) :
    countHolding t.phases + t.free = n := by
  cases hstep with
  | acquire i hw hf =>
      have hc := countHolding_set s.phases i TaskPhase.waiting TaskPhase.holding hw
      simp [phaseWeight] at hc
      simp only []
      omega
  | finish i ok hh =>
      have hc := countHolding_set s.phases i TaskPhase.holding TaskPhase.done hh
      simp [phaseWeight] at hc
      simp only []
      omega

lemma gate_reachable_inv (n m : Nat) (s : GateState) (h : GateReachable n m s) :
    countHolding s.phases + s.free = n := by
  induction h with
  | refl => simp [initGate, countHolding_replicate_waiting]
  | tail hab hbc ih => exact gate_step_preserves n _ _ hbc ih

/-- C9: in every state reachable from startup, the number of pipelines
holding a slot plus the free slots equals the configured bound, hence at
most n pipelines run concurrently; when n pipelines hold slots no free
slot remains, so a further acquire (the n+1st request) is suspended, and
every exit of the guarded section, normal or exceptional, returns its
slot (the finish step of the transition system). -/
theorem semaphore_bounds_concurrency (n m : Nat) (s : GateState)
    (h : GateReachable n m s) :
    countHolding s.phases + s.free = n ∧
    countHolding s.phases ≤ n ∧
    (countHolding s.phases = n → s.free = 0) := by
  have hinv := gate_reachable_inv n m s h
  exact ⟨hinv, by omega, by omega⟩

/-- Witness for C9 at a concrete input: the initial state with the
default bound of 3 slots and two tasks is reachable and satisfies the
bound. -/
theorem semaphore_bounds_concurrency_witness :
    countHolding (initGate MAX_CONCURRENCY 2).phases
        + (initGate MAX_CONCURRENCY 2).free = MAX_CONCURRENCY ∧
    countHolding (initGate MAX_CONCURRENCY 2).phases ≤ MAX_CONCURRENCY ∧
    (countHolding (initGate MAX_CONCURRENCY 2).phases = MAX_CONCURRENCY →
      (initGate MAX_CONCURRENCY 2).free = 0) :=
  semaphore_bounds_concurrency MAX_CONCURRENCY 2 (initGate MAX_CONCURRENCY 2)
    Relation.ReflTransGen.refl

/-- Character-level splitter modelling str.split(","): cut the character
list at every comma. -/
def split_comma_chars : List Char → List Char → List (List Char)
  | [], acc => [acc.reverse]
  | c :: rest, acc =>
      if c = ',' then acc.reverse :: split_comma_chars rest []
      else split_comma_chars rest (c :: acc)

/-- Models str.split(",") as used at src/bot.py line 30: the pieces of
the string between commas. The empty string yields the one-element list
containing the empty string, so the result is never the empty list. -/
def split_comma (s : String) : List String :=
  (split_comma_chars s.data []).map String.mk

/-- Models str.strip as used at src/bot.py line 44: drop leading and
trailing whitespace characters. -/
def strip (s : String) : String :=
  String.mk (((s.data.dropWhile Char.isWhitespace).reverse.dropWhile
    Char.isWhitespace).reverse)

/-- Models the OPENAI_KEYS assignment (src/bot.py line 30):
os.getenv("OPENAI_KEYS", "").split(","). An absent variable yields the
one-element list containing the empty string. -/
def OPENAI_KEYS_of (env : Option String) : List String :=
  split_comma (env.getD "")

/-- Valid-key filtering of get_openai_client (src/bot.py line 44):
[k.strip() for k in OPENAI_KEYS if k.strip()]. -/
def valid_keys_of (keys : List String) : List String :=
  (keys.map strip).filter fun k => decide (k ≠ "")

/-- Models get_openai_client (src/bot.py lines 42-47): raise ValueError
when no valid key remains, else return a client bound to a random valid
key. This function is called nowhere at startup, and the generation path
uses pick_key instead, so this check never runs at startup. -/
def get_openai_client (keys : List String) (r : Nat) : Except String String :=
  let valid_keys := valid_keys_of keys
  if valid_keys.isEmpty then
    Except.error "No valid OpenAI API keys found in environment variable OPENAI_KEYS"
  else
    match random_choice valid_keys r with
    | some k => Except.ok k
    | none => Except.error "unreachable"

/-- Outcome of module import plus the startup event (src/bot.py lines
289-303). -/
inductive StartupOutcome : Type
  | started (keys : List String)
  | failedMissingToken
deriving DecidableEq

/-- Models process startup: module import reads TELEGRAM_BOT_TOKEN and
OPENAI_KEYS (lines 29-30), builds the application with the token at line
290 (the messaging library rejects a missing token there, modelled as
the failure outcome), registers handlers and serves the startup event
(lines 292-303). No path inspects or validates the credential list:
startup completes with whatever OPENAI_KEYS held. -/
def module_startup (botToken : Option String) (keysEnv : Option String) :
    StartupOutcome :=
  match botToken with
  | none => StartupOutcome.failedMissingToken
  | some _ => StartupOutcome.started (OPENAI_KEYS_of keysEnv)

/-- C6 counterexample: with a bot token present and OPENAI_KEYS unset,
the key list is the single empty string, there are zero valid
credentials, and startup nevertheless completes; the ValueError of
get_openai_client exists but is reached only if that function is called
after startup. -/
theorem startup_completes_with_zero_credentials :
    module_startup (some "token") none = StartupOutcome.started [""] ∧
    valid_keys_of (OPENAI_KEYS_of none) = [] ∧
    get_openai_client (OPENAI_KEYS_of none) 0
      = Except.error
        "No valid OpenAI API keys found in environment variable OPENAI_KEYS" := by
  refine ⟨by decide, by decide, ?_⟩
  have hv : (valid_keys_of (OPENAI_KEYS_of none)).isEmpty = true := by decide
  simp [get_openai_client, hv]

/-- C6 amended: a missing bot token does make startup fail, but an empty
credential list does not: startup performs no credential validation and
completes with zero valid credentials; the no-valid-keys ValueError is
raised only if get_openai_client is called later (and the generation
path of this variant never calls it, using pick_key instead). -/
theorem startup_checks_token_but_not_credentials (tok : String)
    (keysEnv : Option String) (r : Nat) :
    module_startup none keysEnv = StartupOutcome.failedMissingToken ∧
    module_startup (some tok) keysEnv
      = StartupOutcome.started (OPENAI_KEYS_of keysEnv) ∧
    valid_keys_of (OPENAI_KEYS_of none) = [] ∧
    get_openai_client (OPENAI_KEYS_of none) r
      = Except.error
        "No valid OpenAI API keys found in environment variable OPENAI_KEYS" := by
  refine ⟨rfl, rfl, by decide, ?_⟩
  have hv : (valid_keys_of (OPENAI_KEYS_of none)).isEmpty = true := by decide
  simp [get_openai_client, hv]

end RizoBot
